import Mathlib

/-!
# Verification of the joint-reactions-analysis batch driver

This file gives a shallow embedding of `JRA_Batch.py` (cohort classification,
trial discovery, time-window extraction, configuration synthesis and the
sequential run orchestrator) and proves properties of that embedding.

Python strings are modelled as `List Char`.  The Python string operations used
by the script (`str.replace`, `str.split`, the `in` substring test) are
implemented below with Python's semantics for the non-empty patterns the
script uses (all patterns occurring in the script are non-empty literals).
External collaborators (the OpenSim engine, the osim-emg package, the file
system and `os.path`) are modelled as explicit parameters, collected in `Env`.
-/

abbrev Str := List Char

/-- Worker for `pyReplace`: scans the string left to right; `k` counts
characters still to be skipped because they belong to an already matched
occurrence of the pattern (Python's `str.replace` consumes non-overlapping
occurrences left to right). -/
def pyReplaceA (p r : Str) : Str → Nat → Str
  | [], _ => []
  | c :: cs, 0 =>
    if p.isPrefixOf (c :: cs) then r ++ pyReplaceA p r cs (p.length - 1)
    else c :: pyReplaceA p r cs 0
  | _ :: cs, k + 1 => pyReplaceA p r cs k

/-- Python `s.replace(p, r)` for a non-empty pattern `p`: replaces every
non-overlapping occurrence of `p` in `s` by `r`, scanning left to right.
(The script only ever calls `replace` with non-empty literal patterns.) -/
def pyReplace (p r s : Str) : Str :=
  pyReplaceA p r s 0

/-- Number of positions of `s` at which the pattern `p` matches (all match
positions, including overlapping ones; for a pattern with a unique match the
two notions of occurrence coincide). -/
def occCount (p : Str) : Str → Nat
  | [] => 0
  | c :: cs => (if p.isPrefixOf (c :: cs) then 1 else 0) + occCount p cs

/-- The part of `s` strictly before the first match of `p` (all of `s` when
`p` never matches).  This is the specification-side reading of
`s.split(p)[0]`: truncation at the first occurrence of the delimiter. -/
def truncAt (p : Str) : Str → Str
  | [] => []
  | c :: cs => if p.isPrefixOf (c :: cs) then [] else c :: truncAt p cs

/-- Worker for `pySplit`, with the same skip-counter discipline as
`pyReplaceA`. -/
def pySplitA (sep : Str) : Str → Nat → List Str
  | [], _ => [[]]
  | c :: cs, 0 =>
    if sep.isPrefixOf (c :: cs) then [] :: pySplitA sep cs (sep.length - 1)
    else
      match pySplitA sep cs 0 with
      | [] => [[c]]
      | t :: ts => (c :: t) :: ts
  | _ :: cs, k + 1 => pySplitA sep cs k

/-- Python `s.split(sep)` for a non-empty separator: splits at every
non-overlapping occurrence, keeping empty pieces; never returns `[]`. -/
def pySplit (sep s : Str) : List Str :=
  pySplitA sep s 0

/-- Last element of a list, or the default for `[]` (Python's `l[-1]` is only
used on the never-empty results of `split`). -/
def lastOr {β : Type} : List β → β → β
  | [], d => d
  | b :: t, _ => lastOr t b

/-- First element of a list, or the default for `[]` (Python's `l[0]` is only
used on the never-empty results of `split`). -/
def headOr {β : Type} : List β → β → β
  | [], d => d
  | b :: _, _ => b

/-- Python's substring test `p in s`. -/
def containsSub (p : Str) : Str → Bool
  | [] => p.isEmpty
  | c :: cs => p.isPrefixOf (c :: cs) || containsSub p cs

/-! ## Basic lemmas about the string primitives -/

theorem pyReplaceA_skip (p r : Str) :
    ∀ (s : Str) (k : Nat), pyReplaceA p r s k = pyReplaceA p r (s.drop k) 0 := by
  intro s
  induction s with
  | nil => intro k; cases k <;> rfl
  | cons c cs ih =>
    intro k
    cases k with
    | zero => rfl
    | succ k => simpa [pyReplaceA] using ih k

theorem pyReplace_nil (p r : Str) : pyReplace p r [] = [] := rfl

theorem pyReplace_cons (p r : Str) (c : Char) (cs : Str) :
    pyReplace p r (c :: cs) =
      if p.isPrefixOf (c :: cs) then r ++ pyReplace p r (cs.drop (p.length - 1))
      else c :: pyReplace p r cs := by
  show pyReplaceA p r (c :: cs) 0 = _
  rw [pyReplaceA]
  by_cases h : p.isPrefixOf (c :: cs)
  · rw [if_pos h, if_pos h, pyReplaceA_skip]; rfl
  · rw [if_neg h, if_neg h]; rfl

theorem occCount_nil (p : Str) : occCount p [] = 0 := rfl

theorem occCount_cons (p : Str) (c : Char) (cs : Str) :
    occCount p (c :: cs) = (if p.isPrefixOf (c :: cs) then 1 else 0) + occCount p cs := rfl

theorem isPrefixOf_append_self : ∀ (p t : Str), p.isPrefixOf (p ++ t) = true
  | [], _ => by simp [List.isPrefixOf]
  | c :: cs, t => by simp [List.isPrefixOf, isPrefixOf_append_self cs t]

theorem occCount_le_append (p : Str) : ∀ (x y : Str), occCount p y ≤ occCount p (x ++ y)
  | [], _ => Nat.le_refl _
  | c :: cs, y => by
    rw [List.cons_append, occCount_cons]
    exact Nat.le_trans (occCount_le_append p cs y) (Nat.le_add_left _ _)

theorem occCount_append_self (p : Str) (hp : p ≠ []) (y : Str) :
    1 + occCount p y ≤ occCount p (p ++ y) := by
  cases p with
  | nil => exact absurd rfl hp
  | cons c cs =>
    rw [List.cons_append, occCount_cons, if_pos]
    · exact Nat.add_le_add_left (occCount_le_append _ _ _) 1
    · exact isPrefixOf_append_self (c :: cs) y


theorem occCount_middle_ge (p : Str) (hp : p ≠ []) (a b : Str) :
    1 + occCount p b ≤ occCount p (a ++ p ++ b) := by
  rw [List.append_assoc]
  exact Nat.le_trans (occCount_append_self p hp b) (occCount_le_append p a (p ++ b))

theorem pyReplace_no_occ (p r : Str) : ∀ (s : Str), occCount p s = 0 → pyReplace p r s = s
  | [], _ => rfl
  | c :: cs, h => by
    rw [occCount_cons] at h
    by_cases hp : p.isPrefixOf (c :: cs)
    · rw [if_pos hp] at h; omega
    · rw [if_neg hp] at h
      rw [pyReplace_cons, if_neg hp, pyReplace_no_occ p r cs (by omega)]

theorem pyReplace_leftmost (p r : Str) (hp : p ≠ []) :
    ∀ (a b : Str), occCount p (a ++ p ++ b) = 1 + occCount p b →
      pyReplace p r (a ++ p ++ b) = a ++ r ++ pyReplace p r b
  | [], b, _ => by
    cases p with
    | nil => exact absurd rfl hp
    | cons q qs =>
      simp only [List.nil_append, List.cons_append]
      have hpre : (q :: qs).isPrefixOf (q :: (qs ++ b)) = true := isPrefixOf_append_self (q :: qs) b
      rw [pyReplace_cons, if_pos hpre]
      simp [List.length_cons, Nat.add_sub_cancel, List.drop_left]
  | c :: a, b, h => by
    simp only [List.cons_append] at h ⊢
    rw [occCount_cons] at h
    have hge := occCount_middle_ge p hp a b
    by_cases hpre : p.isPrefixOf (c :: (a ++ p ++ b))
    · rw [if_pos hpre] at h; omega
    · rw [if_neg hpre] at h
      rw [pyReplace_cons, if_neg hpre, pyReplace_leftmost p r hp a b (by omega)]

theorem pyReplace_unique (p r a b : Str) (hp : p ≠ []) (h : occCount p (a ++ p ++ b) = 1) :
    pyReplace p r (a ++ p ++ b) = a ++ r ++ b := by
  have hge := occCount_middle_ge p hp a b
  have hb : occCount p b = 0 := by omega
  rw [pyReplace_leftmost p r hp a b (by omega), pyReplace_no_occ p r b hb]

theorem pySplitA_skip (sep : Str) :
    ∀ (s : Str) (k : Nat), pySplitA sep s k = pySplitA sep (s.drop k) 0 := by
  intro s
  induction s with
  | nil => intro k; cases k <;> rfl
  | cons c cs ih =>
    intro k
    cases k with
    | zero => rfl
    | succ k => simpa [pySplitA] using ih k

theorem pySplit_cons_pos (sep : Str) (c : Char) (cs : Str) (h : sep.isPrefixOf (c :: cs) = true) :
    pySplit sep (c :: cs) = [] :: pySplit sep (cs.drop (sep.length - 1)) := by
  show pySplitA sep (c :: cs) 0 = _
  rw [pySplitA, if_pos h, pySplitA_skip]
  rfl

theorem pySplitA_ne_nil (sep : Str) : ∀ (s : Str) (k : Nat), pySplitA sep s k ≠ []
  | [], k => by cases k <;> simp [pySplitA]
  | c :: cs, 0 => by
    rw [pySplitA]
    by_cases h : sep.isPrefixOf (c :: cs)
    · simp [h]
    · rw [if_neg h]
      cases hcs : pySplitA sep cs 0 <;> simp
  | _ :: cs, k + 1 => by rw [pySplitA]; exact pySplitA_ne_nil sep cs k

theorem pySplit_cons_neg (sep : Str) (c : Char) (cs t : Str) (ts : List Str)
    (h : ¬ sep.isPrefixOf (c :: cs) = true) (hts : pySplit sep cs = t :: ts) :
    pySplit sep (c :: cs) = (c :: t) :: ts := by
  show pySplitA sep (c :: cs) 0 = _
  rw [pySplitA, if_neg h, show pySplitA sep cs 0 = t :: ts from hts]

theorem pySplit_headOr (sep : Str) : ∀ (s : Str), headOr (pySplit sep s) [] = truncAt sep s
  | [] => rfl
  | c :: cs => by
    by_cases h : sep.isPrefixOf (c :: cs)
    · rw [pySplit_cons_pos sep c cs h, truncAt, if_pos h]; rfl
    · obtain ⟨t, ts, hts⟩ : ∃ t ts, pySplit sep cs = t :: ts := by
        cases hcs : pySplit sep cs with
        | nil => exact absurd hcs (pySplitA_ne_nil sep cs 0)
        | cons t ts => exact ⟨t, ts, rfl⟩
      rw [pySplit_cons_neg sep c cs t ts h hts, truncAt, if_neg h]
      have h2 := pySplit_headOr sep cs
      rw [hts] at h2
      simp only [headOr] at h2 ⊢
      rw [h2]

theorem occCount_singleton_of_notMem (c : Char) : ∀ (s : Str), c ∉ s → occCount [c] s = 0
  | [], _ => rfl
  | x :: xs, h => by
    have hx : ¬ c = x := fun e => h (by rw [e]; exact List.mem_cons_self x xs)
    rw [occCount_cons, if_neg (by simp [List.isPrefixOf, hx]),
      occCount_singleton_of_notMem c xs (fun hm => h (List.mem_cons_of_mem x hm))]

theorem pySplit_no_occ (sep : Str) (hsep : sep ≠ []) :
    ∀ (s : Str), occCount sep s = 0 → pySplit sep s = [s]
  | [], _ => rfl
  | c :: cs, h => by
    rw [occCount_cons] at h
    by_cases hp : sep.isPrefixOf (c :: cs)
    · rw [if_pos hp] at h; omega
    · rw [if_neg hp] at h
      rw [pySplit_cons_neg sep c cs cs [] hp (pySplit_no_occ sep hsep cs (by omega))]

theorem pySplit_singleton_length (c : Char) :
    ∀ (s : Str), (pySplit [c] s).length = occCount [c] s + 1
  | [] => rfl
  | x :: xs => by
    have ih := pySplit_singleton_length c xs
    by_cases hp : List.isPrefixOf [c] (x :: xs)
    · rw [pySplit_cons_pos [c] x xs hp, occCount_cons, if_pos hp]
      simp only [List.length_cons, List.length_nil, Nat.zero_add, Nat.add_sub_cancel, Nat.sub_self,
        List.drop_zero]
      omega
    · obtain ⟨t, ts, hts⟩ : ∃ t ts, pySplit [c] xs = t :: ts := by
        cases hcs : pySplit [c] xs with
        | nil => exact absurd hcs (pySplitA_ne_nil [c] xs 0)
        | cons t ts => exact ⟨t, ts, rfl⟩
      rw [pySplit_cons_neg [c] x xs t ts hp hts, occCount_cons, if_neg hp]
      rw [hts] at ih
      simp only [List.length_cons] at ih ⊢
      omega

theorem lastOr_cons {β : Type} (b : β) (l : List β) (d : β) : lastOr (b :: l) d = lastOr l b := rfl

theorem pySplit_last (c : Char) (name : Str) (h : c ∉ name) :
    ∀ (d : Str), lastOr (pySplit [c] (d ++ c :: name)) [] = name
  | [] => by
    rw [List.nil_append, pySplit_cons_pos [c] c name (by simp [List.isPrefixOf])]
    simp only [List.length_cons, List.length_nil, Nat.zero_add, Nat.add_sub_cancel, Nat.sub_self,
      List.drop_zero]
    rw [pySplit_no_occ [c] (by simp) name (occCount_singleton_of_notMem c name h)]
    rfl
  | x :: d => by
    have ih := pySplit_last c name h d
    by_cases hx : ([c] : Str).isPrefixOf (x :: (d ++ c :: name))
    · rw [List.cons_append, pySplit_cons_pos [c] x _ hx]
      simp only [List.length_cons, List.length_nil, Nat.zero_add, Nat.add_sub_cancel, Nat.sub_self,
        List.drop_zero]
      exact ih
    · obtain ⟨t, ts, hts⟩ : ∃ t ts, pySplit [c] (d ++ c :: name) = t :: ts := by
        cases hcs : pySplit [c] (d ++ c :: name) with
        | nil => exact absurd hcs (pySplitA_ne_nil [c] _ 0)
        | cons t ts => exact ⟨t, ts, rfl⟩
      rw [List.cons_append, pySplit_cons_neg [c] x _ t ts hx hts]
      rw [hts] at ih
      have hlen := pySplit_singleton_length c (d ++ c :: name)
      rw [hts] at hlen
      have hocc := occCount_middle_ge [c] (by simp) d name
      rw [List.append_assoc, List.singleton_append] at hocc
      cases ts with
      | nil =>
        exfalso
        simp only [List.length_cons, List.length_nil] at hlen
        omega
      | cons u us => exact ih

/-! ## String constants of the script -/

def slash : Str := "/".data

def nosupraSuffix : Str := "_nosupra.osim".data

def clampedSuffix : Str := "_clamped.osim".data

def soResultsName : Str := "SO_Results".data

def jraResultsName : Str := "JRA_Results".data

def statesMarker : Str := "_states.sto".data

def soDelim : Str := "_SO".data

def jraToolSuffix : Str := "_JRA".data

def setupSuffix : Str := "_Setup.xml".data

def statesReporterPat : Str := "StatesReporter_states".data

def staticOptPat : Str := "StaticOptimization_activation".data

def tokMODEL : Str := "MODEL_FILE".data

def tokSTATES : Str := "COMBINED_STATES_FILE".data

def tokACT : Str := "COMBINED_ACTIVATION_FILE".data

def tokITIME : Str := "INITIAL_TIME".data

def tokFTIME : Str := "FINAL_TIME".data

def tokRESDIR : Str := "RESULTS_DIRECTORY".data

def tokTRIAL : Str := "TRIAL_NAME".data

/-! ## Data model

Exceptions raised by the script, a trace of its externally visible effects,
and the environment of external capabilities (file system, `os.path`,
the OpenSim `Storage` reader, the osim-emg merge functions, the rendering
of floats by `str`). -/

/-- The Python exceptions relevant to the modelled control flow:
`UnboundLocalError` (classification falls through both cohort branches),
the error raised by `osim.Storage` on an unreadable or empty states artifact,
and `FileExistsError` (raised by `os.makedirs` on an existing directory). -/
inductive PyErr where
  | unboundLocalError
  | storageError
  | fileExistsError
deriving DecidableEq

/-- External capabilities, passed explicitly:
* `abspath` models `os.path.abspath` (depends on the ambient working directory);
* `fs0` is the initial text file system (path to contents), read by `open`;
* `combine_files` and `save_combined_activations` are the external osim-emg
  capabilities (excluded from the core, specified only at their interface);
* `ratStr` models Python's `str` on the time values;
* `storageOf` models `osim.Storage`: the sequence of recorded time values of a
  states artifact, `none` when the artifact is unreadable (constructor raises);
* `walkFiles` models the filenames yielded by `os.walk` over a directory;
* `dirExists` models `os.path.exists` on the initial file system. -/
structure Env where
  abspath : Str → Str
  fs0 : Str → Str
  combine_files : Str → Str
  save_combined_activations : Str → Str → Str → Option Bool → Str
  ratStr : Rat → Str
  storageOf : Str → Option (List Rat)
  walkFiles : Str → List Str
  dirExists : Str → Bool

/-- Result of one `create_jra_setup` call: the activation path it derived, the
path and contents of the file it wrote, and its return value. -/
structure JraSetupResult where
  activationFile : Str
  writtenPath : Str
  writtenContent : Str
  returned : Str
deriving DecidableEq

/-- Externally visible effects of a (partial) batch run, in order of
occurrence within each field. -/
structure Trace where
  createdDirs : List Str
  setupsWritten : List (Str × Str)
  invoked : List Str
  completedTrials : List Str
  completedSubjects : List Str
deriving DecidableEq

def emptyTrace : Trace :=
  { createdDirs := [], setupsWritten := [], invoked := [],
    completedTrials := [], completedSubjects := [] }

/-- Updating the text file system by one write (`open(p, "w")` overwrites). -/
def write_file (fs : Str → Str) (p content : Str) : Str → Str :=
  fun q => if q = p then content else fs q

/-- The text file system after a list of writes, applied in order. -/
def fsAfter (fs : Str → Str) : List (Str × Str) → Str → Str
  | [] => fs
  | w :: ws => fsAfter (write_file fs w.1 w.2) ws

/-- `os.path.join` for two components (POSIX). -/
def os_path_join (a b : Str) : Str :=
  if headOr b ' ' = '/' then b
  else if a = [] then b
  else if lastOr a ' ' = '/' then a ++ b
  else a ++ slash ++ b

/-! ## The embedded program -/

/-- `get_subject_info` (JRA_Batch.py lines 101-118): cohort classification.
In the tear branch the model file is `root/<id>/<id>_nosupra.osim` and the two
directories are derived with `str.replace`; the no-tear branch uses
`_clamped.osim`; when the subject is in neither list, line 114 reads the
never-assigned local `model_file`, raising `UnboundLocalError`. -/
def get_subject_info (abspath : Str → Str) (root subject_id : Str)
    (tear_subjects no_tear_subjects : List Str) : Except PyErr (Str × Str × Str × Bool) :=
  if subject_id ∈ tear_subjects then
    let model_file := root ++ slash ++ subject_id ++ slash ++ subject_id ++ nosupraSuffix
    let so_dir := pyReplace (subject_id ++ nosupraSuffix) soResultsName model_file
    let results_dir := pyReplace (subject_id ++ nosupraSuffix) jraResultsName model_file
    .ok (abspath model_file, abspath so_dir, abspath results_dir, true)
  else if subject_id ∈ no_tear_subjects then
    let model_file := root ++ slash ++ subject_id ++ slash ++ subject_id ++ clampedSuffix
    let so_dir := pyReplace (subject_id ++ clampedSuffix) soResultsName model_file
    let results_dir := pyReplace (subject_id ++ clampedSuffix) jraResultsName model_file
    .ok (abspath model_file, abspath so_dir, abspath results_dir, false)
  else
    .error .unboundLocalError

/-- The chain of the seven `content.replace(...)` calls of `create_jra_setup`
(JRA_Batch.py lines 83-89), applied in program order (`MODEL_FILE` first,
`TRIAL_NAME` last). -/
def jraSubstitute (content v1 v2 v3 v4 v5 v6 v7 : Str) : Str :=
  pyReplace tokTRIAL v7 (pyReplace tokRESDIR v6 (pyReplace tokFTIME v5 (pyReplace tokITIME v4
    (pyReplace tokACT v3 (pyReplace tokSTATES v2 (pyReplace tokMODEL v1 content))))))

/-- `create_jra_setup` (JRA_Batch.py lines 63-98): reads the template from the
file system `fs`, derives the activation path textually from the states path,
calls the two external merge capabilities, substitutes the seven placeholder
tokens, and writes the result to `os.path.join(results_dir, trial_name +
"_Setup.xml")`, returning that path.  The write itself is recorded by the
caller via `writtenPath`/`writtenContent`. -/
def create_jra_setup (fs : Str → Str) (env : Env)
    (setup_template model_file states_file split_emg_filepath not_split_emg_filepath : Str)
    (initial_time final_time : Rat) (results_dir trial_name : Str)
    (cohort : Option Bool) : JraSetupResult :=
  let content0 := fs setup_template
  let combined_states := env.combine_files states_file
  let activation_file := pyReplace statesReporterPat staticOptPat states_file
  let combined_activations :=
    env.save_combined_activations activation_file split_emg_filepath not_split_emg_filepath cohort
  let content := jraSubstitute content0 model_file combined_states combined_activations
    (env.ratStr initial_time) (env.ratStr final_time) results_dir trial_name
  let setup_file := trial_name ++ setupSuffix
  let setup_path := os_path_join results_dir setup_file
  { activationFile := activation_file, writtenPath := setup_path,
    writtenContent := content, returned := setup_path }

/-- `prep_joint_reactions_analysis` (JRA_Batch.py lines 121-140): reads the
states artifact through `osim.Storage`, takes its first and last recorded time
value as the analysis window, and creates the setup file.  An unreadable or
empty artifact raises (modelled as `storageError`).  Besides the setup result
the model also returns the extracted window, which in the script flows into
the setup contents via `str(initial_time)`/`str(final_time)`. -/
def prep_joint_reactions_analysis (fs : Str → Str) (env : Env)
    (setup_template model_file states_file results_dir split_emg_filepath
      not_split_emg_filepath trial_name : Str)
    (cohort : Option Bool) : Except PyErr (Rat × Rat × JraSetupResult) :=
  match env.storageOf states_file with
  | none => .error .storageError
  | some [] => .error .storageError
  | some (t :: ts) =>
    let initial_time := t
    let final_time := lastOr ts t
    .ok (initial_time, final_time,
      create_jra_setup fs env setup_template model_file states_file split_emg_filepath
        not_split_emg_filepath initial_time final_time results_dir trial_name cohort)

/-- The analysis window extracted by a `prep_joint_reactions_analysis` call,
when it succeeded. -/
def windowOf : Except PyErr (Rat × Rat × JraSetupResult) → Option (Rat × Rat)
  | .error _ => none
  | .ok (a, b, _) => some (a, b)

/-- The per-filename computation of the discovery loop (JRA_Batch.py lines
161-163): the states-file path is `so_dir + "/" + name`, and the trial
identifier is `states_file.split("/")[-1].split("_SO")[0]`. -/
def trial_of_name (so_dir name : Str) : Str × Str :=
  let states_file := so_dir ++ slash ++ name
  let sub_last := lastOr (pySplit slash states_file) []
  let trial := headOr (pySplit soDelim sub_last) []
  (trial, states_file)

/-- Trial discovery over one directory listing (JRA_Batch.py lines 158-163):
select the filenames containing `"_states.sto"` and pair each with its trial
identifier and states-file path. -/
def discover_trials (so_dir : Str) (filenames : List Str) : List (Str × Str) :=
  (filenames.filter fun name => containsSub statesMarker name).map
    fun name => trial_of_name so_dir name

/-- `os.path.exists` during a run: a directory exists if it existed initially
or was created earlier in this run. -/
def os_path_exists (env : Env) (tr : Trace) (p : Str) : Bool :=
  env.dirExists p || tr.createdDirs.contains p

/-- `os.makedirs` (default `exist_ok=False`): raises `FileExistsError` when
the directory already exists, otherwise creates it. -/
def os_makedirs (env : Env) (tr : Trace) (p : Str) : Trace × Option PyErr :=
  if os_path_exists env tr p then (tr, some .fileExistsError)
  else ({ tr with createdDirs := tr.createdDirs ++ [p] }, none)

/-- The guarded directory creation of the orchestrator (JRA_Batch.py lines
154-156): `if not os.path.exists(results_dir): os.makedirs(results_dir)`. -/
def ensure_results_dir (env : Env) (tr : Trace) (p : Str) : Trace × Option PyErr :=
  if os_path_exists env tr p = false then os_makedirs env tr p else (tr, none)

/-- Processing of one matching filename inside the trial loop (JRA_Batch.py
lines 161-176): derive the trial identifier and states path, run
`prep_joint_reactions_analysis` (whose setup write is recorded), then load the
model and run the external `AnalyzeTool` on the setup path (recorded in
`invoked`).  An exception aborts with the effects so far. -/
def process_trial (env : Env)
    (setup_template model_file results_dir so_dir split_emg_filepath
      not_split_emg_filepath : Str)
    (cohort : Option Bool) (name : Str) (tr : Trace) : Trace × Option PyErr :=
  let (trial, states_file) := trial_of_name so_dir name
  let tool_name := trial ++ jraToolSuffix
  match prep_joint_reactions_analysis (fsAfter env.fs0 tr.setupsWritten) env setup_template
      model_file states_file results_dir split_emg_filepath not_split_emg_filepath
      tool_name cohort with
  | .error e => (tr, some e)
  | .ok (_, _, r) =>
    let tr1 := { tr with setupsWritten := tr.setupsWritten ++ [(r.writtenPath, r.writtenContent)] }
    let tr2 := { tr1 with invoked := tr1.invoked ++ [r.returned] }
    ({ tr2 with completedTrials := tr2.completedTrials ++ [trial] }, none)

/-- The trial loop of the orchestrator (JRA_Batch.py lines 158-176): iterate
the filenames, process those containing `"_states.sto"`; an exception in one
trial propagates immediately and stops the loop. -/
def run_trials (env : Env)
    (setup_template model_file results_dir so_dir split_emg_filepath
      not_split_emg_filepath : Str)
    (cohort : Option Bool) : List Str → Trace → Trace × Option PyErr
  | [], tr => (tr, none)
  | name :: rest, tr =>
    if containsSub statesMarker name then
      match process_trial env setup_template model_file results_dir so_dir split_emg_filepath
          not_split_emg_filepath cohort name tr with
      | (tr1, none) =>
        run_trials env setup_template model_file results_dir so_dir split_emg_filepath
          not_split_emg_filepath cohort rest tr1
      | (tr1, some e) => (tr1, some e)
    else
      run_trials env setup_template model_file results_dir so_dir split_emg_filepath
        not_split_emg_filepath cohort rest tr

/-- Processing of one subject (JRA_Batch.py lines 148-178): classify, create
the results directory if absent, then run the trial loop over the filenames
seen by `os.walk`; an exception propagates immediately. -/
def process_subject (env : Env) (tear_subjects no_tear_subjects : List Str)
    (split_emg_filepath not_split_emg_filepath root_dir setup_template : Str)
    (subject_id : Str) (tr : Trace) : Trace × Option PyErr :=
  match get_subject_info env.abspath root_dir subject_id tear_subjects no_tear_subjects with
  | .error e => (tr, some e)
  | .ok (model_file, so_dir, results_dir, cohort) =>
    match ensure_results_dir env tr results_dir with
    | (tr1, some e) => (tr1, some e)
    | (tr1, none) =>
      match run_trials env setup_template model_file results_dir so_dir split_emg_filepath
          not_split_emg_filepath (some cohort) (env.walkFiles so_dir) tr1 with
      | (tr2, some e) => (tr2, some e)
      | (tr2, none) =>
        ({ tr2 with completedSubjects := tr2.completedSubjects ++ [subject_id] }, none)

/-- The subject loop: an exception in one subject propagates immediately and
terminates the batch. -/
def run_subjects (env : Env) (tear_subjects no_tear_subjects : List Str)
    (split_emg_filepath not_split_emg_filepath root_dir setup_template : Str) :
    List Str → Trace → Trace × Option PyErr
  | [], tr => (tr, none)
  | s :: rest, tr =>
    match process_subject env tear_subjects no_tear_subjects split_emg_filepath
        not_split_emg_filepath root_dir setup_template s tr with
    | (tr1, some e) => (tr1, some e)
    | (tr1, none) =>
      run_subjects env tear_subjects no_tear_subjects split_emg_filepath
        not_split_emg_filepath root_dir setup_template rest tr1

/-- `run_joint_reactions_analysis` (JRA_Batch.py lines 143-179): iterate the
concatenation of the tear and no-tear subject lists over an initially empty
effect trace. -/
def run_joint_reactions_analysis (env : Env) (tear_subjects no_tear_subjects : List Str)
    (split_emg_filepath not_split_emg_filepath root_dir setup_template : Str) :
    Trace × Option PyErr :=
  run_subjects env tear_subjects no_tear_subjects split_emg_filepath not_split_emg_filepath
    root_dir setup_template (tear_subjects ++ no_tear_subjects) emptyTrace

deriving instance DecidableEq for Except

/-! ## Cohort classification (claims C1, C4, C8) -/

theorem append_nosupra_ne_nil (s : Str) : s ++ nosupraSuffix ≠ [] := by
  intro h
  exact absurd (List.append_eq_nil.mp h).2 (by decide)

theorem append_clamped_ne_nil (s : Str) : s ++ clampedSuffix ≠ [] := by
  intro h
  exact absurd (List.append_eq_nil.mp h).2 (by decide)

theorem get_subject_info_tear (abspath : Str → Str) (root subject_id : Str)
    (tear_subjects no_tear_subjects : List Str) (h1 : subject_id ∈ tear_subjects)
    (hocc : occCount (subject_id ++ nosupraSuffix)
      (root ++ slash ++ subject_id ++ slash ++ subject_id ++ nosupraSuffix) = 1) :
    get_subject_info abspath root subject_id tear_subjects no_tear_subjects =
      .ok (abspath (root ++ slash ++ subject_id ++ slash ++ subject_id ++ nosupraSuffix),
        abspath (root ++ slash ++ subject_id ++ slash ++ soResultsName),
        abspath (root ++ slash ++ subject_id ++ slash ++ jraResultsName), true) := by
  have e1 : pyReplace (subject_id ++ nosupraSuffix) soResultsName
      (root ++ slash ++ subject_id ++ slash ++ subject_id ++ nosupraSuffix)
      = root ++ slash ++ subject_id ++ slash ++ soResultsName := by
    have h2 := pyReplace_unique (subject_id ++ nosupraSuffix) soResultsName
      (root ++ slash ++ subject_id ++ slash) [] (append_nosupra_ne_nil subject_id)
      (by simpa [List.append_assoc] using hocc)
    simpa [List.append_assoc] using h2
  have e2 : pyReplace (subject_id ++ nosupraSuffix) jraResultsName
      (root ++ slash ++ subject_id ++ slash ++ subject_id ++ nosupraSuffix)
      = root ++ slash ++ subject_id ++ slash ++ jraResultsName := by
    have h2 := pyReplace_unique (subject_id ++ nosupraSuffix) jraResultsName
      (root ++ slash ++ subject_id ++ slash) [] (append_nosupra_ne_nil subject_id)
      (by simpa [List.append_assoc] using hocc)
    simpa [List.append_assoc] using h2
  unfold get_subject_info
  rw [if_pos h1]
  simp only [e1, e2]

theorem get_subject_info_no_tear (abspath : Str → Str) (root subject_id : Str)
    (tear_subjects no_tear_subjects : List Str) (h1 : subject_id ∉ tear_subjects)
    (h2 : subject_id ∈ no_tear_subjects)
    (hocc : occCount (subject_id ++ clampedSuffix)
      (root ++ slash ++ subject_id ++ slash ++ subject_id ++ clampedSuffix) = 1) :
    get_subject_info abspath root subject_id tear_subjects no_tear_subjects =
      .ok (abspath (root ++ slash ++ subject_id ++ slash ++ subject_id ++ clampedSuffix),
        abspath (root ++ slash ++ subject_id ++ slash ++ soResultsName),
        abspath (root ++ slash ++ subject_id ++ slash ++ jraResultsName), false) := by
  have e1 : pyReplace (subject_id ++ clampedSuffix) soResultsName
      (root ++ slash ++ subject_id ++ slash ++ subject_id ++ clampedSuffix)
      = root ++ slash ++ subject_id ++ slash ++ soResultsName := by
    have h3 := pyReplace_unique (subject_id ++ clampedSuffix) soResultsName
      (root ++ slash ++ subject_id ++ slash) [] (append_clamped_ne_nil subject_id)
      (by simpa [List.append_assoc] using hocc)
    simpa [List.append_assoc] using h3
  have e2 : pyReplace (subject_id ++ clampedSuffix) jraResultsName
      (root ++ slash ++ subject_id ++ slash ++ subject_id ++ clampedSuffix)
      = root ++ slash ++ subject_id ++ slash ++ jraResultsName := by
    have h3 := pyReplace_unique (subject_id ++ clampedSuffix) jraResultsName
      (root ++ slash ++ subject_id ++ slash) [] (append_clamped_ne_nil subject_id)
      (by simpa [List.append_assoc] using hocc)
    simpa [List.append_assoc] using h3
  unfold get_subject_info
  rw [if_neg h1, if_pos h2]
  simp only [e1, e2]

/-- C1: for a subject identifier in exactly one of the two cohort lists,
`get_subject_info` returns the tear tag (`True`) with model path
`<root>/<id>/<id>_nosupra.osim` when the identifier is in the tear list, and
the no-tear tag (`False`) with model path `<root>/<id>/<id>_clamped.osim` when
it is in the no-tear list, together with the SO-results and output-results
directories obtained from the model path by replacing the model filename
(assumed, as in any realistic layout, to occur exactly once in that path) with
`SO_Results` and `JRA_Results`, all three paths passed through
`os.path.abspath`. -/
theorem c1_cohort_classification (abspath : Str → Str) (root subject_id : Str)
    (tear_subjects no_tear_subjects : List Str)
    (hocc1 : occCount (subject_id ++ nosupraSuffix)
      (root ++ slash ++ subject_id ++ slash ++ subject_id ++ nosupraSuffix) = 1)
    (hocc2 : occCount (subject_id ++ clampedSuffix)
      (root ++ slash ++ subject_id ++ slash ++ subject_id ++ clampedSuffix) = 1) :
    (subject_id ∈ tear_subjects → subject_id ∉ no_tear_subjects →
      get_subject_info abspath root subject_id tear_subjects no_tear_subjects =
        .ok (abspath (root ++ slash ++ subject_id ++ slash ++ subject_id ++ nosupraSuffix),
          abspath (root ++ slash ++ subject_id ++ slash ++ soResultsName),
          abspath (root ++ slash ++ subject_id ++ slash ++ jraResultsName), true))
    ∧ (subject_id ∉ tear_subjects → subject_id ∈ no_tear_subjects →
      get_subject_info abspath root subject_id tear_subjects no_tear_subjects =
        .ok (abspath (root ++ slash ++ subject_id ++ slash ++ subject_id ++ clampedSuffix),
          abspath (root ++ slash ++ subject_id ++ slash ++ soResultsName),
          abspath (root ++ slash ++ subject_id ++ slash ++ jraResultsName), false)) := by
  constructor
  · intro h1 _
    exact get_subject_info_tear abspath root subject_id tear_subjects no_tear_subjects h1 hocc1
  · intro h1 h2
    exact get_subject_info_no_tear abspath root subject_id tear_subjects no_tear_subjects h1 h2 hocc2

theorem c1_cohort_classification_witness :
    get_subject_info (fun s => s) "r".data "S".data ["S".data] ["T".data]
        = .ok ("r/S/S_nosupra.osim".data, "r/S/SO_Results".data, "r/S/JRA_Results".data, true)
      ∧ get_subject_info (fun s => s) "r".data "T".data ["S".data] ["T".data]
        = .ok ("r/T/T_clamped.osim".data, "r/T/SO_Results".data, "r/T/JRA_Results".data, false) := by
  constructor
  · exact ((c1_cohort_classification (fun s => s) "r".data "S".data ["S".data] ["T".data]
      (by decide) (by decide)).1 (by decide) (by decide)).trans (by decide)
  · exact ((c1_cohort_classification (fun s => s) "r".data "T".data ["S".data] ["T".data]
      (by decide) (by decide)).2 (by decide) (by decide)).trans (by decide)

/-- C4: for a subject identifier in neither cohort list, classification fails
with a surfaced, named error (the `UnboundLocalError` raised at the first read
of the never-assigned `model_file`), rather than returning a cohort. -/
theorem c4_unclassified_subject_fails (abspath : Str → Str) (root subject_id : Str)
    (tear_subjects no_tear_subjects : List Str)
    (h1 : subject_id ∉ tear_subjects) (h2 : subject_id ∉ no_tear_subjects) :
    get_subject_info abspath root subject_id tear_subjects no_tear_subjects =
      .error .unboundLocalError := by
  unfold get_subject_info
  rw [if_neg h1, if_neg h2]

theorem c4_unclassified_subject_fails_witness :
    get_subject_info (fun s => s) "r".data "X".data ["A".data] ["B".data]
      = .error .unboundLocalError :=
  c4_unclassified_subject_fails (fun s => s) "r".data "X".data ["A".data] ["B".data]
    (by decide) (by decide)

/-- C8: for a subject identifier present in both cohort lists, classification
returns the tear tag and the tear-cohort paths (the tear branch wins by
evaluation order), the same result as if the identifier were only in the tear
list (removing it from the no-tear list does not change the result). -/
theorem c8_both_lists_tear_wins (abspath : Str → Str) (root subject_id : Str)
    (tear_subjects no_tear_subjects : List Str)
    (h1 : subject_id ∈ tear_subjects) (_h2 : subject_id ∈ no_tear_subjects)
    (hocc : occCount (subject_id ++ nosupraSuffix)
      (root ++ slash ++ subject_id ++ slash ++ subject_id ++ nosupraSuffix) = 1) :
    get_subject_info abspath root subject_id tear_subjects no_tear_subjects =
        .ok (abspath (root ++ slash ++ subject_id ++ slash ++ subject_id ++ nosupraSuffix),
          abspath (root ++ slash ++ subject_id ++ slash ++ soResultsName),
          abspath (root ++ slash ++ subject_id ++ slash ++ jraResultsName), true)
      ∧ get_subject_info abspath root subject_id tear_subjects no_tear_subjects =
        get_subject_info abspath root subject_id tear_subjects
          (no_tear_subjects.erase subject_id) := by
  refine ⟨get_subject_info_tear abspath root subject_id tear_subjects no_tear_subjects h1 hocc, ?_⟩
  unfold get_subject_info
  rw [if_pos h1, if_pos h1]

theorem c8_both_lists_tear_wins_witness :
    get_subject_info (fun s => s) "r".data "S".data ["S".data] ["S".data]
        = .ok ("r/S/S_nosupra.osim".data, "r/S/SO_Results".data, "r/S/JRA_Results".data, true)
      ∧ get_subject_info (fun s => s) "r".data "S".data ["S".data] ["S".data]
        = get_subject_info (fun s => s) "r".data "S".data ["S".data] (["S".data].erase "S".data) := by
  have h := c8_both_lists_tear_wins (fun s => s) "r".data "S".data ["S".data] ["S".data]
    (by decide) (by decide) (by decide)
  exact ⟨h.1.trans (by decide), h.2⟩

/-! ## Trial discovery (claim C2) -/

theorem trial_of_name_eq (so_dir name : Str) (hname : '/' ∉ name) :
    trial_of_name so_dir name = (truncAt soDelim name, so_dir ++ slash ++ name) := by
  have hs : slash = ['/'] := rfl
  have hlast : lastOr (pySplit slash (so_dir ++ slash ++ name)) [] = name := by
    rw [hs, List.append_assoc, List.singleton_append]
    exact pySplit_last '/' name hname so_dir
  simp only [trial_of_name, hlast, pySplit_headOr]

/-- C2: over the directory listing `{A_SO_StatesReporter_states.sto,
A_SO_StaticOptimization_activation.sto, B_SO_StatesReporter_states.sto}`,
trial discovery selects exactly the two filenames containing the states
marker `"_states.sto"` and yields exactly the trial identifiers `A` and `B`,
each paired with its own states-file path; and in general the trial
identifier of a selected filename (which, coming from `os.walk`, contains no
path separator) is the filename truncated at the first occurrence of the
delimiter `"_SO"`. -/
theorem c2_trial_discovery :
    (∀ so_dir : Str,
      discover_trials so_dir
        ["A_SO_StatesReporter_states.sto".data, "A_SO_StaticOptimization_activation.sto".data,
          "B_SO_StatesReporter_states.sto".data] =
        [("A".data, so_dir ++ slash ++ "A_SO_StatesReporter_states.sto".data),
          ("B".data, so_dir ++ slash ++ "B_SO_StatesReporter_states.sto".data)])
    ∧ (∀ so_dir name : Str, '/' ∉ name → containsSub statesMarker name = true →
        trial_of_name so_dir name = (truncAt soDelim name, so_dir ++ slash ++ name)) := by
  constructor
  · intro so_dir
    have e1 : containsSub statesMarker "A_SO_StatesReporter_states.sto".data = true := by decide
    have e2 : containsSub statesMarker "A_SO_StaticOptimization_activation.sto".data = false := by
      decide
    have e3 : containsSub statesMarker "B_SO_StatesReporter_states.sto".data = true := by decide
    simp only [discover_trials, List.filter_cons, e1, e2, e3, if_true, if_false,
      List.filter_nil, List.map_cons, List.map_nil,
      trial_of_name_eq so_dir "A_SO_StatesReporter_states.sto".data (by decide),
      trial_of_name_eq so_dir "B_SO_StatesReporter_states.sto".data (by decide),
      show truncAt soDelim "A_SO_StatesReporter_states.sto".data = "A".data from by decide,
      show truncAt soDelim "B_SO_StatesReporter_states.sto".data = "B".data from by decide]
    simp [trial_of_name_eq so_dir "B_SO_StatesReporter_states.sto".data (by decide),
      show truncAt soDelim "B_SO_StatesReporter_states.sto".data = "B".data from by decide]
  · intro so_dir name h1 _
    exact trial_of_name_eq so_dir name h1

theorem c2_trial_discovery_witness :
    discover_trials "d".data
      ["A_SO_StatesReporter_states.sto".data, "A_SO_StaticOptimization_activation.sto".data,
        "B_SO_StatesReporter_states.sto".data] =
      [("A".data, "d/A_SO_StatesReporter_states.sto".data),
        ("B".data, "d/B_SO_StatesReporter_states.sto".data)] :=
  (c2_trial_discovery.1 "d".data).trans (by decide)

/-! ## Configuration synthesis (claims C3, C7, C10) -/

theorem os_path_join_plain (a b : Str) (hb : headOr b ' ' ≠ '/') (ha : a ≠ [])
    (hal : lastOr a ' ' ≠ '/') : os_path_join a b = a ++ slash ++ b := by
  unfold os_path_join
  rw [if_neg hb, if_neg ha, if_neg hal]

/-- The seven sequential replacements, on a template in which each token
occurs exactly once at each stage, substitute each token at its unique
occurrence. -/
theorem jraSubstitute_segmented (s0 s1 s2 s3 s4 s5 s6 s7 v1 v2 v3 v4 v5 v6 v7 : Str)
    (h1 : occCount tokMODEL (s0 ++ tokMODEL ++ s1 ++ tokSTATES ++ s2 ++ tokACT ++ s3 ++ tokITIME ++ s4 ++ tokFTIME ++ s5 ++ tokRESDIR ++ s6 ++ tokTRIAL ++ s7) = 1)
    (h2 : occCount tokSTATES (s0 ++ v1 ++ s1 ++ tokSTATES ++ s2 ++ tokACT ++ s3 ++ tokITIME ++ s4 ++ tokFTIME ++ s5 ++ tokRESDIR ++ s6 ++ tokTRIAL ++ s7) = 1)
    (h3 : occCount tokACT (s0 ++ v1 ++ s1 ++ v2 ++ s2 ++ tokACT ++ s3 ++ tokITIME ++ s4 ++ tokFTIME ++ s5 ++ tokRESDIR ++ s6 ++ tokTRIAL ++ s7) = 1)
    (h4 : occCount tokITIME (s0 ++ v1 ++ s1 ++ v2 ++ s2 ++ v3 ++ s3 ++ tokITIME ++ s4 ++ tokFTIME ++ s5 ++ tokRESDIR ++ s6 ++ tokTRIAL ++ s7) = 1)
    (h5 : occCount tokFTIME (s0 ++ v1 ++ s1 ++ v2 ++ s2 ++ v3 ++ s3 ++ v4 ++ s4 ++ tokFTIME ++ s5 ++ tokRESDIR ++ s6 ++ tokTRIAL ++ s7) = 1)
    (h6 : occCount tokRESDIR (s0 ++ v1 ++ s1 ++ v2 ++ s2 ++ v3 ++ s3 ++ v4 ++ s4 ++ v5 ++ s5 ++ tokRESDIR ++ s6 ++ tokTRIAL ++ s7) = 1)
    (h7 : occCount tokTRIAL (s0 ++ v1 ++ s1 ++ v2 ++ s2 ++ v3 ++ s3 ++ v4 ++ s4 ++ v5 ++ s5 ++ v6 ++ s6 ++ tokTRIAL ++ s7) = 1) :
    jraSubstitute (s0 ++ tokMODEL ++ s1 ++ tokSTATES ++ s2 ++ tokACT ++ s3 ++ tokITIME ++ s4 ++ tokFTIME ++ s5 ++ tokRESDIR ++ s6 ++ tokTRIAL ++ s7) v1 v2 v3 v4 v5 v6 v7 = s0 ++ v1 ++ s1 ++ v2 ++ s2 ++ v3 ++ s3 ++ v4 ++ s4 ++ v5 ++ s5 ++ v6 ++ s6 ++ v7 ++ s7 := by
  have e1 : pyReplace tokMODEL v1 (s0 ++ tokMODEL ++ s1 ++ tokSTATES ++ s2 ++ tokACT ++ s3 ++ tokITIME ++ s4 ++ tokFTIME ++ s5 ++ tokRESDIR ++ s6 ++ tokTRIAL ++ s7) = s0 ++ v1 ++ s1 ++ tokSTATES ++ s2 ++ tokACT ++ s3 ++ tokITIME ++ s4 ++ tokFTIME ++ s5 ++ tokRESDIR ++ s6 ++ tokTRIAL ++ s7 := by
    have h := pyReplace_unique tokMODEL v1 (s0)
      (s1 ++ tokSTATES ++ s2 ++ tokACT ++ s3 ++ tokITIME ++ s4 ++ tokFTIME ++ s5 ++ tokRESDIR ++ s6 ++ tokTRIAL ++ s7) (by decide) (by simpa [List.append_assoc] using h1)
    simpa [List.append_assoc] using h
  have e2 : pyReplace tokSTATES v2 (s0 ++ v1 ++ s1 ++ tokSTATES ++ s2 ++ tokACT ++ s3 ++ tokITIME ++ s4 ++ tokFTIME ++ s5 ++ tokRESDIR ++ s6 ++ tokTRIAL ++ s7) = s0 ++ v1 ++ s1 ++ v2 ++ s2 ++ tokACT ++ s3 ++ tokITIME ++ s4 ++ tokFTIME ++ s5 ++ tokRESDIR ++ s6 ++ tokTRIAL ++ s7 := by
    have h := pyReplace_unique tokSTATES v2 (s0 ++ v1 ++ s1)
      (s2 ++ tokACT ++ s3 ++ tokITIME ++ s4 ++ tokFTIME ++ s5 ++ tokRESDIR ++ s6 ++ tokTRIAL ++ s7) (by decide) (by simpa [List.append_assoc] using h2)
    simpa [List.append_assoc] using h
  have e3 : pyReplace tokACT v3 (s0 ++ v1 ++ s1 ++ v2 ++ s2 ++ tokACT ++ s3 ++ tokITIME ++ s4 ++ tokFTIME ++ s5 ++ tokRESDIR ++ s6 ++ tokTRIAL ++ s7) = s0 ++ v1 ++ s1 ++ v2 ++ s2 ++ v3 ++ s3 ++ tokITIME ++ s4 ++ tokFTIME ++ s5 ++ tokRESDIR ++ s6 ++ tokTRIAL ++ s7 := by
    have h := pyReplace_unique tokACT v3 (s0 ++ v1 ++ s1 ++ v2 ++ s2)
      (s3 ++ tokITIME ++ s4 ++ tokFTIME ++ s5 ++ tokRESDIR ++ s6 ++ tokTRIAL ++ s7) (by decide) (by simpa [List.append_assoc] using h3)
    simpa [List.append_assoc] using h
  have e4 : pyReplace tokITIME v4 (s0 ++ v1 ++ s1 ++ v2 ++ s2 ++ v3 ++ s3 ++ tokITIME ++ s4 ++ tokFTIME ++ s5 ++ tokRESDIR ++ s6 ++ tokTRIAL ++ s7) = s0 ++ v1 ++ s1 ++ v2 ++ s2 ++ v3 ++ s3 ++ v4 ++ s4 ++ tokFTIME ++ s5 ++ tokRESDIR ++ s6 ++ tokTRIAL ++ s7 := by
    have h := pyReplace_unique tokITIME v4 (s0 ++ v1 ++ s1 ++ v2 ++ s2 ++ v3 ++ s3)
      (s4 ++ tokFTIME ++ s5 ++ tokRESDIR ++ s6 ++ tokTRIAL ++ s7) (by decide) (by simpa [List.append_assoc] using h4)
    simpa [List.append_assoc] using h
  have e5 : pyReplace tokFTIME v5 (s0 ++ v1 ++ s1 ++ v2 ++ s2 ++ v3 ++ s3 ++ v4 ++ s4 ++ tokFTIME ++ s5 ++ tokRESDIR ++ s6 ++ tokTRIAL ++ s7) = s0 ++ v1 ++ s1 ++ v2 ++ s2 ++ v3 ++ s3 ++ v4 ++ s4 ++ v5 ++ s5 ++ tokRESDIR ++ s6 ++ tokTRIAL ++ s7 := by
    have h := pyReplace_unique tokFTIME v5 (s0 ++ v1 ++ s1 ++ v2 ++ s2 ++ v3 ++ s3 ++ v4 ++ s4)
      (s5 ++ tokRESDIR ++ s6 ++ tokTRIAL ++ s7) (by decide) (by simpa [List.append_assoc] using h5)
    simpa [List.append_assoc] using h
  have e6 : pyReplace tokRESDIR v6 (s0 ++ v1 ++ s1 ++ v2 ++ s2 ++ v3 ++ s3 ++ v4 ++ s4 ++ v5 ++ s5 ++ tokRESDIR ++ s6 ++ tokTRIAL ++ s7) = s0 ++ v1 ++ s1 ++ v2 ++ s2 ++ v3 ++ s3 ++ v4 ++ s4 ++ v5 ++ s5 ++ v6 ++ s6 ++ tokTRIAL ++ s7 := by
    have h := pyReplace_unique tokRESDIR v6 (s0 ++ v1 ++ s1 ++ v2 ++ s2 ++ v3 ++ s3 ++ v4 ++ s4 ++ v5 ++ s5)
      (s6 ++ tokTRIAL ++ s7) (by decide) (by simpa [List.append_assoc] using h6)
    simpa [List.append_assoc] using h
  have e7 : pyReplace tokTRIAL v7 (s0 ++ v1 ++ s1 ++ v2 ++ s2 ++ v3 ++ s3 ++ v4 ++ s4 ++ v5 ++ s5 ++ v6 ++ s6 ++ tokTRIAL ++ s7) = s0 ++ v1 ++ s1 ++ v2 ++ s2 ++ v3 ++ s3 ++ v4 ++ s4 ++ v5 ++ s5 ++ v6 ++ s6 ++ v7 ++ s7 := by
    have h := pyReplace_unique tokTRIAL v7 (s0 ++ v1 ++ s1 ++ v2 ++ s2 ++ v3 ++ s3 ++ v4 ++ s4 ++ v5 ++ s5 ++ v6 ++ s6)
      (s7) (by decide) (by simpa [List.append_assoc] using h7)
    simpa [List.append_assoc] using h
  simp only [jraSubstitute]
  rw [e1, e2, e3, e4, e5, e6, e7]

/-- C3: on a template in which each of the seven placeholder tokens occurs
exactly once (at every stage of the in-order substitution, so that no
substituted value re-introduces a later token), `create_jra_setup` replaces
each of `MODEL_FILE`, `COMBINED_STATES_FILE`, `COMBINED_ACTIVATION_FILE`,
`INITIAL_TIME`, `FINAL_TIME`, `RESULTS_DIRECTORY`, `TRIAL_NAME` exactly once,
at its unique occurrence, writes the substituted text to
`<results_dir>/<trial_name>_Setup.xml`, and returns exactly that path. -/
theorem c3_create_jra_setup_substitution (fs : Str → Str) (env : Env)
    (setup_template model_file states_file split_emg_filepath not_split_emg_filepath : Str)
    (initial_time final_time : Rat) (results_dir trial_name : Str) (cohort : Option Bool)
    (s0 s1 s2 s3 s4 s5 s6 s7 v2 v3 v4 v5 : Str)
    (htmpl : fs setup_template = s0 ++ tokMODEL ++ s1 ++ tokSTATES ++ s2 ++ tokACT ++ s3 ++ tokITIME ++ s4 ++ tokFTIME ++ s5 ++ tokRESDIR ++ s6 ++ tokTRIAL ++ s7)
    (hv2 : env.combine_files states_file = v2)
    (hv3 : env.save_combined_activations (pyReplace statesReporterPat staticOptPat states_file)
      split_emg_filepath not_split_emg_filepath cohort = v3)
    (hv4 : env.ratStr initial_time = v4)
    (hv5 : env.ratStr final_time = v5)
    (h1 : occCount tokMODEL (s0 ++ tokMODEL ++ s1 ++ tokSTATES ++ s2 ++ tokACT ++ s3 ++ tokITIME ++ s4 ++ tokFTIME ++ s5 ++ tokRESDIR ++ s6 ++ tokTRIAL ++ s7) = 1)
    (h2 : occCount tokSTATES (s0 ++ model_file ++ s1 ++ tokSTATES ++ s2 ++ tokACT ++ s3 ++ tokITIME ++ s4 ++ tokFTIME ++ s5 ++ tokRESDIR ++ s6 ++ tokTRIAL ++ s7) = 1)
    (h3 : occCount tokACT (s0 ++ model_file ++ s1 ++ v2 ++ s2 ++ tokACT ++ s3 ++ tokITIME ++ s4 ++ tokFTIME ++ s5 ++ tokRESDIR ++ s6 ++ tokTRIAL ++ s7) = 1)
    (h4 : occCount tokITIME (s0 ++ model_file ++ s1 ++ v2 ++ s2 ++ v3 ++ s3 ++ tokITIME ++ s4 ++ tokFTIME ++ s5 ++ tokRESDIR ++ s6 ++ tokTRIAL ++ s7) = 1)
    (h5 : occCount tokFTIME (s0 ++ model_file ++ s1 ++ v2 ++ s2 ++ v3 ++ s3 ++ v4 ++ s4 ++ tokFTIME ++ s5 ++ tokRESDIR ++ s6 ++ tokTRIAL ++ s7) = 1)
    (h6 : occCount tokRESDIR (s0 ++ model_file ++ s1 ++ v2 ++ s2 ++ v3 ++ s3 ++ v4 ++ s4 ++ v5 ++ s5 ++ tokRESDIR ++ s6 ++ tokTRIAL ++ s7) = 1)
    (h7 : occCount tokTRIAL (s0 ++ model_file ++ s1 ++ v2 ++ s2 ++ v3 ++ s3 ++ v4 ++ s4 ++ v5 ++ s5 ++ results_dir ++ s6 ++ tokTRIAL ++ s7) = 1)
    (hrd : results_dir ≠ []) (hrdl : lastOr results_dir ' ' ≠ '/')
    (htn : headOr (trial_name ++ setupSuffix) ' ' ≠ '/') :
    (create_jra_setup fs env setup_template model_file states_file split_emg_filepath
        not_split_emg_filepath initial_time final_time results_dir trial_name
        cohort).writtenContent = s0 ++ model_file ++ s1 ++ v2 ++ s2 ++ v3 ++ s3 ++ v4 ++ s4 ++ v5 ++ s5 ++ results_dir ++ s6 ++ trial_name ++ s7
    ∧ (create_jra_setup fs env setup_template model_file states_file split_emg_filepath
        not_split_emg_filepath initial_time final_time results_dir trial_name
        cohort).writtenPath = results_dir ++ slash ++ (trial_name ++ setupSuffix)
    ∧ (create_jra_setup fs env setup_template model_file states_file split_emg_filepath
        not_split_emg_filepath initial_time final_time results_dir trial_name
        cohort).returned = (create_jra_setup fs env setup_template model_file states_file
        split_emg_filepath not_split_emg_filepath initial_time final_time results_dir
        trial_name cohort).writtenPath := by
  refine ⟨?_, ?_, rfl⟩
  · show jraSubstitute (fs setup_template) model_file (env.combine_files states_file)
      (env.save_combined_activations (pyReplace statesReporterPat staticOptPat states_file)
        split_emg_filepath not_split_emg_filepath cohort)
      (env.ratStr initial_time) (env.ratStr final_time) results_dir trial_name = _
    rw [htmpl, hv2, hv3, hv4, hv5]
    exact jraSubstitute_segmented s0 s1 s2 s3 s4 s5 s6 s7 model_file v2 v3 v4 v5 results_dir
      trial_name h1 h2 h3 h4 h5 h6 h7
  · show os_path_join results_dir (trial_name ++ setupSuffix) = _
    exact os_path_join_plain results_dir (trial_name ++ setupSuffix) htn hrd hrdl

/-- A concrete seven-token template and environment for instantiating the
configuration-synthesis theorems. -/
def tmplC3 : Str := ("0MODEL_FILE1COMBINED_STATES_FILE2COMBINED_ACTIVATION_FILE3INITIAL_"
  ++ "TIME4FINAL_TIME5RESULTS_DIRECTORY6TRIAL_NAME7").data

def envC3 : Env :=
  { abspath := fun s => s, fs0 := fun _ => tmplC3,
    combine_files := fun _ => "cs".data,
    save_combined_activations := fun _ _ _ _ => "ca".data,
    ratStr := fun q => if q = 0 then "it".data else "ft".data,
    storageOf := fun _ => none, walkFiles := fun _ => [], dirExists := fun _ => false }

theorem c3_create_jra_setup_substitution_witness :
    (create_jra_setup (fun _ => tmplC3) envC3 "t".data "m".data "sf".data "se".data
        "ne".data 0 1 "rd".data "tn".data none).writtenContent = "0m1cs2ca3it4ft5rd6tn7".data
    ∧ (create_jra_setup (fun _ => tmplC3) envC3 "t".data "m".data "sf".data "se".data
        "ne".data 0 1 "rd".data "tn".data none).writtenPath = "rd/tn_Setup.xml".data := by
  have h := c3_create_jra_setup_substitution (fun _ => tmplC3) envC3 "t".data "m".data
    "sf".data "se".data "ne".data 0 1 "rd".data "tn".data none
    "0".data "1".data "2".data "3".data "4".data "5".data "6".data "7".data
    "cs".data "ca".data "it".data "ft".data
    (by decide) (by decide) (by decide) (by decide) (by decide)
    (by decide) (by decide) (by decide) (by decide) (by decide) (by decide) (by decide)
    (by decide) (by decide) (by decide)
  exact ⟨h.1.trans (by decide), h.2.1.trans (by decide)⟩

theorem write_file_idem (f : Str → Str) (p c : Str) :
    write_file (write_file f p c) p c = write_file f p c := by
  funext q
  unfold write_file
  by_cases hq : q = p <;> simp [hq]

/-- C7: configuration synthesis is idempotent.  Running `create_jra_setup`
twice with identical, fully resolved inputs (the second run on the file
system left by the first run's write, which does not overwrite the template)
produces byte-identical contents at the same artifact path, no placeholder
token remains in the output of either run, and the second run's write
overwrites the first artifact leaving the file system unchanged (file writes
raise no error in this model, matching `open(..., "w")`). -/
theorem c7_create_jra_setup_idempotent (fs : Str → Str) (env : Env)
    (setup_template model_file states_file split_emg_filepath not_split_emg_filepath : Str)
    (initial_time final_time : Rat) (results_dir trial_name : Str) (cohort : Option Bool)
    (s0 s1 s2 s3 s4 s5 s6 s7 v2 v3 v4 v5 : Str)
    (htmpl : fs setup_template = s0 ++ tokMODEL ++ s1 ++ tokSTATES ++ s2 ++ tokACT ++ s3 ++ tokITIME ++ s4 ++ tokFTIME ++ s5 ++ tokRESDIR ++ s6 ++ tokTRIAL ++ s7)
    (hv2 : env.combine_files states_file = v2)
    (hv3 : env.save_combined_activations (pyReplace statesReporterPat staticOptPat states_file)
      split_emg_filepath not_split_emg_filepath cohort = v3)
    (hv4 : env.ratStr initial_time = v4)
    (hv5 : env.ratStr final_time = v5)
    (h1 : occCount tokMODEL (s0 ++ tokMODEL ++ s1 ++ tokSTATES ++ s2 ++ tokACT ++ s3 ++ tokITIME ++ s4 ++ tokFTIME ++ s5 ++ tokRESDIR ++ s6 ++ tokTRIAL ++ s7) = 1)
    (h2 : occCount tokSTATES (s0 ++ model_file ++ s1 ++ tokSTATES ++ s2 ++ tokACT ++ s3 ++ tokITIME ++ s4 ++ tokFTIME ++ s5 ++ tokRESDIR ++ s6 ++ tokTRIAL ++ s7) = 1)
    (h3 : occCount tokACT (s0 ++ model_file ++ s1 ++ v2 ++ s2 ++ tokACT ++ s3 ++ tokITIME ++ s4 ++ tokFTIME ++ s5 ++ tokRESDIR ++ s6 ++ tokTRIAL ++ s7) = 1)
    (h4 : occCount tokITIME (s0 ++ model_file ++ s1 ++ v2 ++ s2 ++ v3 ++ s3 ++ tokITIME ++ s4 ++ tokFTIME ++ s5 ++ tokRESDIR ++ s6 ++ tokTRIAL ++ s7) = 1)
    (h5 : occCount tokFTIME (s0 ++ model_file ++ s1 ++ v2 ++ s2 ++ v3 ++ s3 ++ v4 ++ s4 ++ tokFTIME ++ s5 ++ tokRESDIR ++ s6 ++ tokTRIAL ++ s7) = 1)
    (h6 : occCount tokRESDIR (s0 ++ model_file ++ s1 ++ v2 ++ s2 ++ v3 ++ s3 ++ v4 ++ s4 ++ v5 ++ s5 ++ tokRESDIR ++ s6 ++ tokTRIAL ++ s7) = 1)
    (h7 : occCount tokTRIAL (s0 ++ model_file ++ s1 ++ v2 ++ s2 ++ v3 ++ s3 ++ v4 ++ s4 ++ v5 ++ s5 ++ results_dir ++ s6 ++ tokTRIAL ++ s7) = 1)
    (hc1 : occCount tokMODEL (s0 ++ model_file ++ s1 ++ v2 ++ s2 ++ v3 ++ s3 ++ v4 ++ s4 ++ v5 ++ s5 ++ results_dir ++ s6 ++ trial_name ++ s7) = 0)
    (hc2 : occCount tokSTATES (s0 ++ model_file ++ s1 ++ v2 ++ s2 ++ v3 ++ s3 ++ v4 ++ s4 ++ v5 ++ s5 ++ results_dir ++ s6 ++ trial_name ++ s7) = 0)
    (hc3 : occCount tokACT (s0 ++ model_file ++ s1 ++ v2 ++ s2 ++ v3 ++ s3 ++ v4 ++ s4 ++ v5 ++ s5 ++ results_dir ++ s6 ++ trial_name ++ s7) = 0)
    (hc4 : occCount tokITIME (s0 ++ model_file ++ s1 ++ v2 ++ s2 ++ v3 ++ s3 ++ v4 ++ s4 ++ v5 ++ s5 ++ results_dir ++ s6 ++ trial_name ++ s7) = 0)
    (hc5 : occCount tokFTIME (s0 ++ model_file ++ s1 ++ v2 ++ s2 ++ v3 ++ s3 ++ v4 ++ s4 ++ v5 ++ s5 ++ results_dir ++ s6 ++ trial_name ++ s7) = 0)
    (hc6 : occCount tokRESDIR (s0 ++ model_file ++ s1 ++ v2 ++ s2 ++ v3 ++ s3 ++ v4 ++ s4 ++ v5 ++ s5 ++ results_dir ++ s6 ++ trial_name ++ s7) = 0)
    (hc7 : occCount tokTRIAL (s0 ++ model_file ++ s1 ++ v2 ++ s2 ++ v3 ++ s3 ++ v4 ++ s4 ++ v5 ++ s5 ++ results_dir ++ s6 ++ trial_name ++ s7) = 0)
    (hrd : results_dir ≠ []) (hrdl : lastOr results_dir ' ' ≠ '/')
    (htn : headOr (trial_name ++ setupSuffix) ' ' ≠ '/')
    (hne : setup_template ≠ results_dir ++ slash ++ (trial_name ++ setupSuffix)) :
    (create_jra_setup (write_file fs (create_jra_setup fs env setup_template model_file states_file split_emg_filepath not_split_emg_filepath
      initial_time final_time results_dir trial_name cohort).writtenPath
      (create_jra_setup fs env setup_template model_file states_file split_emg_filepath not_split_emg_filepath
      initial_time final_time results_dir trial_name cohort).writtenContent) env setup_template model_file states_file split_emg_filepath not_split_emg_filepath
      initial_time final_time results_dir trial_name cohort).writtenContent = (create_jra_setup fs env setup_template model_file states_file split_emg_filepath not_split_emg_filepath
      initial_time final_time results_dir trial_name cohort).writtenContent
    ∧ (create_jra_setup (write_file fs (create_jra_setup fs env setup_template model_file states_file split_emg_filepath not_split_emg_filepath
      initial_time final_time results_dir trial_name cohort).writtenPath
      (create_jra_setup fs env setup_template model_file states_file split_emg_filepath not_split_emg_filepath
      initial_time final_time results_dir trial_name cohort).writtenContent) env setup_template model_file states_file split_emg_filepath not_split_emg_filepath
      initial_time final_time results_dir trial_name cohort).writtenPath = (create_jra_setup fs env setup_template model_file states_file split_emg_filepath not_split_emg_filepath
      initial_time final_time results_dir trial_name cohort).writtenPath
    ∧ write_file (write_file fs (create_jra_setup fs env setup_template model_file states_file split_emg_filepath not_split_emg_filepath
      initial_time final_time results_dir trial_name cohort).writtenPath
      (create_jra_setup fs env setup_template model_file states_file split_emg_filepath not_split_emg_filepath
      initial_time final_time results_dir trial_name cohort).writtenContent) (create_jra_setup (write_file fs (create_jra_setup fs env setup_template model_file states_file split_emg_filepath not_split_emg_filepath
      initial_time final_time results_dir trial_name cohort).writtenPath
      (create_jra_setup fs env setup_template model_file states_file split_emg_filepath not_split_emg_filepath
      initial_time final_time results_dir trial_name cohort).writtenContent) env setup_template model_file states_file split_emg_filepath not_split_emg_filepath
      initial_time final_time results_dir trial_name cohort).writtenPath (create_jra_setup (write_file fs (create_jra_setup fs env setup_template model_file states_file split_emg_filepath not_split_emg_filepath
      initial_time final_time results_dir trial_name cohort).writtenPath
      (create_jra_setup fs env setup_template model_file states_file split_emg_filepath not_split_emg_filepath
      initial_time final_time results_dir trial_name cohort).writtenContent) env setup_template model_file states_file split_emg_filepath not_split_emg_filepath
      initial_time final_time results_dir trial_name cohort).writtenContent = (write_file fs (create_jra_setup fs env setup_template model_file states_file split_emg_filepath not_split_emg_filepath
      initial_time final_time results_dir trial_name cohort).writtenPath
      (create_jra_setup fs env setup_template model_file states_file split_emg_filepath not_split_emg_filepath
      initial_time final_time results_dir trial_name cohort).writtenContent)
    ∧ ∀ t ∈ [tokMODEL, tokSTATES, tokACT, tokITIME, tokFTIME, tokRESDIR, tokTRIAL],
        occCount t (create_jra_setup fs env setup_template model_file states_file split_emg_filepath not_split_emg_filepath
      initial_time final_time results_dir trial_name cohort).writtenContent = 0 ∧ occCount t (create_jra_setup (write_file fs (create_jra_setup fs env setup_template model_file states_file split_emg_filepath not_split_emg_filepath
      initial_time final_time results_dir trial_name cohort).writtenPath
      (create_jra_setup fs env setup_template model_file states_file split_emg_filepath not_split_emg_filepath
      initial_time final_time results_dir trial_name cohort).writtenContent) env setup_template model_file states_file split_emg_filepath not_split_emg_filepath
      initial_time final_time results_dir trial_name cohort).writtenContent = 0 := by
  have hpath1 : (create_jra_setup fs env setup_template model_file states_file split_emg_filepath not_split_emg_filepath
      initial_time final_time results_dir trial_name cohort).writtenPath = results_dir ++ slash ++ (trial_name ++ setupSuffix) := by
    show os_path_join results_dir (trial_name ++ setupSuffix) = _
    exact os_path_join_plain results_dir (trial_name ++ setupSuffix) htn hrd hrdl
  have hfs1 : write_file fs (create_jra_setup fs env setup_template model_file states_file split_emg_filepath not_split_emg_filepath
      initial_time final_time results_dir trial_name cohort).writtenPath (create_jra_setup fs env setup_template model_file states_file split_emg_filepath not_split_emg_filepath
      initial_time final_time results_dir trial_name cohort).writtenContent setup_template = fs setup_template := by
    simp only [write_file]
    rw [if_neg (fun he => hne (he.trans hpath1))]
  have hcontent : (create_jra_setup (write_file fs (create_jra_setup fs env setup_template model_file states_file split_emg_filepath not_split_emg_filepath
      initial_time final_time results_dir trial_name cohort).writtenPath
      (create_jra_setup fs env setup_template model_file states_file split_emg_filepath not_split_emg_filepath
      initial_time final_time results_dir trial_name cohort).writtenContent) env setup_template model_file states_file split_emg_filepath not_split_emg_filepath
      initial_time final_time results_dir trial_name cohort).writtenContent = (create_jra_setup fs env setup_template model_file states_file split_emg_filepath not_split_emg_filepath
      initial_time final_time results_dir trial_name cohort).writtenContent := by
    show jraSubstitute (write_file fs (create_jra_setup fs env setup_template model_file states_file split_emg_filepath not_split_emg_filepath
      initial_time final_time results_dir trial_name cohort).writtenPath (create_jra_setup fs env setup_template model_file states_file split_emg_filepath not_split_emg_filepath
      initial_time final_time results_dir trial_name cohort).writtenContent setup_template)
        model_file (env.combine_files states_file)
        (env.save_combined_activations (pyReplace statesReporterPat staticOptPat states_file)
          split_emg_filepath not_split_emg_filepath cohort)
        (env.ratStr initial_time) (env.ratStr final_time) results_dir trial_name
      = jraSubstitute (fs setup_template) model_file (env.combine_files states_file)
        (env.save_combined_activations (pyReplace statesReporterPat staticOptPat states_file)
          split_emg_filepath not_split_emg_filepath cohort)
        (env.ratStr initial_time) (env.ratStr final_time) results_dir trial_name
    rw [hfs1]
  have hfinal : (create_jra_setup fs env setup_template model_file states_file split_emg_filepath not_split_emg_filepath
      initial_time final_time results_dir trial_name cohort).writtenContent = s0 ++ model_file ++ s1 ++ v2 ++ s2 ++ v3 ++ s3 ++ v4 ++ s4 ++ v5 ++ s5 ++ results_dir ++ s6 ++ trial_name ++ s7 := by
    show jraSubstitute (fs setup_template) model_file (env.combine_files states_file)
        (env.save_combined_activations (pyReplace statesReporterPat staticOptPat states_file)
          split_emg_filepath not_split_emg_filepath cohort)
        (env.ratStr initial_time) (env.ratStr final_time) results_dir trial_name = _
    rw [htmpl, hv2, hv3, hv4, hv5]
    exact jraSubstitute_segmented s0 s1 s2 s3 s4 s5 s6 s7 model_file v2 v3 v4 v5 results_dir
      trial_name h1 h2 h3 h4 h5 h6 h7
  refine ⟨hcontent, rfl, ?_, ?_⟩
  · rw [show (create_jra_setup (write_file fs (create_jra_setup fs env setup_template model_file states_file split_emg_filepath not_split_emg_filepath
      initial_time final_time results_dir trial_name cohort).writtenPath
      (create_jra_setup fs env setup_template model_file states_file split_emg_filepath not_split_emg_filepath
      initial_time final_time results_dir trial_name cohort).writtenContent) env setup_template model_file states_file split_emg_filepath not_split_emg_filepath
      initial_time final_time results_dir trial_name cohort).writtenPath = (create_jra_setup fs env setup_template model_file states_file split_emg_filepath not_split_emg_filepath
      initial_time final_time results_dir trial_name cohort).writtenPath from rfl, hcontent]
    exact write_file_idem fs (create_jra_setup fs env setup_template model_file states_file split_emg_filepath not_split_emg_filepath
      initial_time final_time results_dir trial_name cohort).writtenPath (create_jra_setup fs env setup_template model_file states_file split_emg_filepath not_split_emg_filepath
      initial_time final_time results_dir trial_name cohort).writtenContent
  · intro t ht
    simp only [List.mem_cons, List.not_mem_nil, or_false] at ht
    rcases ht with rfl | rfl | rfl | rfl | rfl | rfl | rfl
    · exact ⟨by rw [hfinal]; exact hc1, by rw [hcontent, hfinal]; exact hc1⟩
    · exact ⟨by rw [hfinal]; exact hc2, by rw [hcontent, hfinal]; exact hc2⟩
    · exact ⟨by rw [hfinal]; exact hc3, by rw [hcontent, hfinal]; exact hc3⟩
    · exact ⟨by rw [hfinal]; exact hc4, by rw [hcontent, hfinal]; exact hc4⟩
    · exact ⟨by rw [hfinal]; exact hc5, by rw [hcontent, hfinal]; exact hc5⟩
    · exact ⟨by rw [hfinal]; exact hc6, by rw [hcontent, hfinal]; exact hc6⟩
    · exact ⟨by rw [hfinal]; exact hc7, by rw [hcontent, hfinal]; exact hc7⟩

theorem c7_create_jra_setup_idempotent_witness :
    (create_jra_setup (write_file (fun _ => tmplC3) (create_jra_setup (fun _ => tmplC3) envC3 "t".data "m".data "sf".data "se".data "ne".data 0 1 "rd".data "tn".data none).writtenPath (create_jra_setup (fun _ => tmplC3) envC3 "t".data "m".data "sf".data "se".data "ne".data 0 1 "rd".data "tn".data none).writtenContent) envC3 "t".data "m".data "sf".data "se".data "ne".data 0 1 "rd".data "tn".data none).writtenContent = "0m1cs2ca3it4ft5rd6tn7".data
    ∧ (create_jra_setup (write_file (fun _ => tmplC3) (create_jra_setup (fun _ => tmplC3) envC3 "t".data "m".data "sf".data "se".data "ne".data 0 1 "rd".data "tn".data none).writtenPath (create_jra_setup (fun _ => tmplC3) envC3 "t".data "m".data "sf".data "se".data "ne".data 0 1 "rd".data "tn".data none).writtenContent) envC3 "t".data "m".data "sf".data "se".data "ne".data 0 1 "rd".data "tn".data none).writtenPath = (create_jra_setup (fun _ => tmplC3) envC3 "t".data "m".data "sf".data "se".data "ne".data 0 1 "rd".data "tn".data none).writtenPath
    ∧ occCount tokMODEL (create_jra_setup (fun _ => tmplC3) envC3 "t".data "m".data "sf".data "se".data "ne".data 0 1 "rd".data "tn".data none).writtenContent = 0 := by
  have h := c7_create_jra_setup_idempotent (fun _ => tmplC3) envC3 "t".data "m".data "sf".data "se".data "ne".data 0 1 "rd".data "tn".data none
    "0".data "1".data "2".data "3".data "4".data "5".data "6".data "7".data
    "cs".data "ca".data "it".data "ft".data
    (by decide) (by decide) (by decide) (by decide) (by decide)
    (by decide) (by decide) (by decide) (by decide) (by decide) (by decide) (by decide)
    (by decide) (by decide) (by decide) (by decide) (by decide) (by decide) (by decide)
    (by decide) (by decide) (by decide) (by decide)
  exact ⟨(h.1).trans (by decide), h.2.1,
    (h.2.2.2 tokMODEL (List.mem_cons_self _ _)).1⟩

/-- C10: the activation-file path is derived purely textually from the states
path, by replacing every occurrence of the substring
`"StatesReporter_states"` with `"StaticOptimization_activation"` (shown on a
path with two occurrences: both are replaced); synthesis never consults
file-existence information (its result is unchanged under arbitrary
`dirExists`/`walkFiles`/`storageOf`), and discovery ignores the presence or
absence of non-states filenames such as activation siblings — so the
trial-validity requirement that both files exist is enforced neither at
discovery nor at synthesis. -/
theorem c10_activation_path_textual (fs : Str → Str) (env : Env)
    (st mf se nse : Str) (it ft : Rat) (rd tn : Str) (coh : Option Bool) (a b c : Str)
    (h2 : occCount statesReporterPat
        (a ++ statesReporterPat ++ (b ++ statesReporterPat ++ c))
      = 1 + occCount statesReporterPat (b ++ statesReporterPat ++ c))
    (h1 : occCount statesReporterPat (b ++ statesReporterPat ++ c) = 1) :
    (∀ states_file : Str,
      (create_jra_setup fs env st mf states_file se nse it ft rd tn coh).activationFile
        = pyReplace statesReporterPat staticOptPat states_file)
    ∧ (create_jra_setup fs env st mf (a ++ statesReporterPat ++ (b ++ statesReporterPat ++ c))
        se nse it ft rd tn coh).activationFile
        = a ++ staticOptPat ++ (b ++ staticOptPat ++ c)
    ∧ (∀ (d : Str → Bool) (w : Str → List Str) (sto : Str → Option (List Rat)),
        create_jra_setup fs { env with dirExists := d, walkFiles := w, storageOf := sto }
            st mf (a ++ statesReporterPat ++ (b ++ statesReporterPat ++ c)) se nse it ft rd tn coh
          = create_jra_setup fs env st mf
            (a ++ statesReporterPat ++ (b ++ statesReporterPat ++ c)) se nse it ft rd tn coh)
    ∧ (∀ (so_dir actName : Str) (l1 l2 : List Str), containsSub statesMarker actName = false →
        discover_trials so_dir (l1 ++ actName :: l2) = discover_trials so_dir (l1 ++ l2)) := by
  refine ⟨fun _ => rfl, ?_, fun _ _ _ => rfl, ?_⟩
  · show pyReplace statesReporterPat staticOptPat
        (a ++ statesReporterPat ++ (b ++ statesReporterPat ++ c)) = _
    rw [pyReplace_leftmost statesReporterPat staticOptPat (by decide) a
        (b ++ statesReporterPat ++ c) h2,
      pyReplace_unique statesReporterPat staticOptPat b c (by decide) h1]
  · intro so_dir actName l1 l2 hact
    simp [discover_trials, List.filter_append, List.filter_cons, hact]

theorem c10_activation_path_textual_witness :
    (create_jra_setup (fun _ => tmplC3) envC3 "t".data "m".data
        ("x".data ++ statesReporterPat ++ ("y".data ++ statesReporterPat ++ ".sto".data))
        "se".data "ne".data 0 1 "rd".data "tn".data none).activationFile
      = "xStaticOptimization_activationyStaticOptimization_activation.sto".data := by
  have h := c10_activation_path_textual (fun _ => tmplC3) envC3 "t".data "m".data
    "se".data "ne".data 0 1 "rd".data "tn".data none "x".data "y".data ".sto".data
    (by decide) (by decide)
  exact h.2.1.trans (by decide)

/-! ## Time-window extraction (claim C6) -/

/-- C6: for a readable, non-empty states artifact, time-window extraction in
`prep_joint_reactions_analysis` returns exactly the first recorded time value
as the initial time and the last recorded time value as the final time.  The
external `osim.Storage` reader is modelled from the spec's interface
description (the artifact's recorded time series, exposed through
`getFirstTime`/`getLastTime`). -/
theorem c6_time_window (fs : Str → Str) (env : Env)
    (st mf sf rd se nse tn : Str) (coh : Option Bool) (times : List Rat)
    (h : env.storageOf sf = some times) (hne : times ≠ []) :
    windowOf (prep_joint_reactions_analysis fs env st mf sf rd se nse tn coh)
      = some (headOr times 0, lastOr times 0) := by
  cases times with
  | nil => exact absurd rfl hne
  | cons t ts =>
    unfold prep_joint_reactions_analysis
    rw [h]
    rfl

/-- The timestamp column 0.10, 0.12, ..., 1.00 (46 samples, step 0.02). -/
def times46 : List Rat := (List.range 46).map fun i => 1/10 + (i : Rat) * (1/50)

def envC6 : Env := { envC3 with storageOf := fun _ => some times46 }

theorem c6_time_window_witness :
    times46 ≠ []
    ∧ windowOf (prep_joint_reactions_analysis (fun _ => tmplC3) envC6 "t".data "m".data
        "sf".data "rd".data "se".data "ne".data "tn".data none)
      = some (1/10 + ((0 : Nat) : Rat) * (1/50), 1/10 + ((45 : Nat) : Rat) * (1/50))
    ∧ 1/10 + ((0 : Nat) : Rat) * (1/50) = 1/10
    ∧ 1/10 + ((45 : Nat) : Rat) * (1/50) = 1 := by
  refine ⟨by decide, ?_, by norm_num, by norm_num⟩
  have h := c6_time_window (fun _ => tmplC3) envC6 "t".data "m".data "sf".data "rd".data
    "se".data "ne".data "tn".data none times46 rfl (by decide)
  exact h.trans rfl

/-! ## Output-directory creation (claim C9) -/

/-- C9: output-directory creation is idempotent.  The orchestrator's guarded
step `if not os.path.exists(results_dir): os.makedirs(results_dir)` never
raises; when the directory is absent it creates exactly that directory, and
when the directory already exists it performs no creation and leaves the
trace (and hence the existing directory) unchanged. -/
theorem c9_results_dir_idempotent (env : Env) (tr : Trace) (p : Str) :
    (ensure_results_dir env tr p).2 = none
    ∧ (os_path_exists env tr p = true → (ensure_results_dir env tr p).1 = tr)
    ∧ (os_path_exists env tr p = false →
        (ensure_results_dir env tr p).1 = { tr with createdDirs := tr.createdDirs ++ [p] }) := by
  unfold ensure_results_dir os_makedirs
  by_cases h : os_path_exists env tr p = true
  · rw [if_neg (by simp [h])]
    exact ⟨rfl, fun _ => rfl, fun hf => absurd h (by simp [hf])⟩
  · have hf : os_path_exists env tr p = false := by simpa using h
    rw [if_pos hf, if_neg h]
    exact ⟨rfl, fun ht => absurd ht h, fun _ => rfl⟩

theorem c9_results_dir_idempotent_witness :
    ((ensure_results_dir envC3 emptyTrace "rd".data).2 = none
      ∧ (ensure_results_dir envC3 emptyTrace "rd".data).1
        = { emptyTrace with createdDirs := ["rd".data] })
    ∧ (ensure_results_dir envC6 { emptyTrace with createdDirs := ["rd".data] } "rd".data).1
      = { emptyTrace with createdDirs := ["rd".data] } := by
  refine ⟨⟨(c9_results_dir_idempotent envC3 emptyTrace "rd".data).1, ?_⟩, ?_⟩
  · exact ((c9_results_dir_idempotent envC3 emptyTrace "rd".data).2.2 (by decide)).trans
      (by decide)
  · exact (c9_results_dir_idempotent envC6 { emptyTrace with createdDirs := ["rd".data] }
      "rd".data).2.1 (by decide)

/-! ## Failure propagation in the orchestrator (claim C5) -/

/-- C5 (amended): the reference orchestrator has no per-trial error handling.
An exception raised while processing one trial propagates immediately: the
trial loop returns that error without processing the remaining filenames, and
an exception in one subject makes the subject loop return it without
processing the remaining subjects — a single trial failure terminates the
whole batch. -/
theorem c5_trial_failure_terminates_batch :
    (∀ (env : Env) (st mf rd sd se nse : Str) (coh : Option Bool) (name : Str)
        (rest : List Str) (tr tr1 : Trace) (e : PyErr),
      containsSub statesMarker name = true →
      process_trial env st mf rd sd se nse coh name tr = (tr1, some e) →
      run_trials env st mf rd sd se nse coh (name :: rest) tr = (tr1, some e))
    ∧ (∀ (env : Env) (tear notear : List Str) (se nse root st subj : Str)
        (more : List Str) (tr tr1 : Trace) (e : PyErr),
      process_subject env tear notear se nse root st subj tr = (tr1, some e) →
      run_subjects env tear notear se nse root st (subj :: more) tr = (tr1, some e)) := by
  constructor
  · intro env st mf rd sd se nse coh name rest tr tr1 e hname hproc
    unfold run_trials
    rw [if_pos hname, hproc]
  · intro env tear notear se nse root st subj more tr tr1 e hproc
    unfold run_subjects
    rw [hproc]

def n1C5 : Str := "T1_SO_StatesReporter_states.sto".data

def n2C5 : Str := "T2_SO_StatesReporter_states.sto".data

/-- One subject with two trials; the first trial's states artifact is
unreadable (`osim.Storage` raises), the second is readable. -/
def envC5 : Env :=
  { abspath := fun s => s, fs0 := fun _ => tmplC3,
    combine_files := fun s => s,
    save_combined_activations := fun a _ _ _ => a,
    ratStr := fun _ => "0".data,
    storageOf := fun p =>
      if p = "root/S/SO_Results/T1_SO_StatesReporter_states.sto".data then none
      else some [0, 1],
    walkFiles := fun _ => [n1C5, n2C5], dirExists := fun _ => false }

/-- C5 counterexample: with subject `S` owning trials `T1` and `T2` and an
unreadable states artifact for `T1`, the batch terminates with the storage
error after creating the results directory: no setup is written, the engine
is never invoked, the sibling trial `T2` is not processed, and the subject
(hence the batch) does not run to completion — contradicting the claim that
only the failing trial is aborted while the batch continues. -/
theorem c5_trial_failure_counterexample :
    run_joint_reactions_analysis envC5 ["S".data] [] "se".data "ne".data "root".data
        "tmpl".data
      = ({ createdDirs := ["root/S/JRA_Results".data], setupsWritten := [], invoked := [],
            completedTrials := [], completedSubjects := [] }, some PyErr.storageError) := by
  decide

theorem c5_trial_failure_terminates_batch_witness :
    run_trials envC5 "tmpl".data "root/S/S_nosupra.osim".data "root/S/JRA_Results".data
        "root/S/SO_Results".data "se".data "ne".data (some true) [n1C5, n2C5] emptyTrace
      = (emptyTrace, some PyErr.storageError) :=
  c5_trial_failure_terminates_batch.1 envC5 "tmpl".data "root/S/S_nosupra.osim".data
    "root/S/JRA_Results".data "root/S/SO_Results".data "se".data "ne".data (some true)
    n1C5 [n2C5] emptyTrace emptyTrace PyErr.storageError (by decide) (by decide)
